import Mathlib

/-!
Verification of the per-joint limit-enforcement policies of the
`joint_limits_interface` package.

The C++ source (`joint_limits_interface.hpp`, `joint_limits_rosparam.hpp`) is
shallowly embedded here:

* `double` values are modelled as exact rationals (`ℚ`); the IEEE-754 NaN
  sentinel used for the cached previous position, and the NaN produced by
  finite-differencing against that sentinel, are modelled by `Option ℚ`
  (`none` = NaN).  IEEE comparison semantics — every ordered comparison
  involving NaN is false — are reproduced by `oLt`, and `std::max`,
  `std::min` and `rcppmath::clamp` (which has `std::clamp` semantics:
  `v < lo ? lo : hi < v ? hi : v`) are reproduced on these values by
  `stdMax`, `stdMin` and `clampO`.
* A hardware `JointHandle` read delivers a plain (finite) rational; the
  optional velocity-sense handle is modelled by an `Option ℚ` argument to
  `enforceLimits` (`none` = no velocity handle bound).
* Constructors that can throw `JointLimitsInterfaceException` are modelled as
  `Except String`; constructors that cannot throw return `.ok` always.
* Each `enforceLimits` becomes a pure function from the handle state and the
  cycle inputs (measured position, optional measured velocity, proposed
  command, period in seconds) to a result record exposing the written command,
  the interval bounds computed for the cycle, and the successor handle state.
-/

/-- Largest finite IEEE-754 double, `std::numeric_limits<double>::max()`,
as an exact rational. -/
def DBL_MAX : ℚ := (2 ^ 53 - 1) * 2 ^ 971

/-- Model of `rcppmath::clamp` (same semantics as `std::clamp`):
`v < lo ? lo : hi < v ? hi : v`. -/
def clamp (v lo hi : ℚ) : ℚ := if v < lo then lo else if hi < v then hi else v

/-- Model of `std::max` on finite doubles: `(a < b) ? b : a`. -/
def stdMaxQ (a b : ℚ) : ℚ := if a < b then b else a

/-- Model of `std::min` on finite doubles: `(b < a) ? b : a`. -/
def stdMinQ (a b : ℚ) : ℚ := if b < a then b else a

/-- IEEE `<` on possibly-NaN doubles: any comparison involving NaN is false. -/
def oLt : Option ℚ → Option ℚ → Bool
  | some a, some b => decide (a < b)
  | _, _ => false

/-- Model of `std::max` on possibly-NaN doubles: `(a < b) ? b : a`. -/
def stdMax (a b : Option ℚ) : Option ℚ := if oLt a b then b else a

/-- Model of `std::min` on possibly-NaN doubles: `(b < a) ? b : a`. -/
def stdMin (a b : Option ℚ) : Option ℚ := if oLt b a then b else a

/-- Model of `rcppmath::clamp` applied to a finite command with possibly-NaN
bounds: `v < lo ? lo : hi < v ? hi : v`, where a comparison against NaN is
false (so a NaN bound never constrains). -/
def clampO (v : ℚ) (lo hi : Option ℚ) : ℚ :=
  match lo, hi with
  | some l, some h => clamp v l h
  | some l, none => if v < l then l else v
  | none, some h => if h < v then h else v
  | none, none => v

/-- Model of `joint_limits_interface::JointLimits` (joint_limits.hpp): each
bound is gated by an independent presence flag. -/
structure JointLimits where
  has_position_limits : Bool := false
  min_position : ℚ := 0
  max_position : ℚ := 0
  has_velocity_limits : Bool := false
  max_velocity : ℚ := 0
  has_acceleration_limits : Bool := false
  max_acceleration : ℚ := 0
  has_jerk_limits : Bool := false
  max_jerk : ℚ := 0
  has_effort_limits : Bool := false
  max_effort : ℚ := 0
  angle_wraparound : Bool := false
  deriving DecidableEq

/-- Model of `joint_limits_interface::SoftJointLimits`. -/
structure SoftJointLimits where
  min_position : ℚ := 0
  max_position : ℚ := 0
  k_position : ℚ := 0
  k_velocity : ℚ := 0
  deriving DecidableEq

/-- Model of `JointSaturationLimitHandle::get_velocity`: if a velocity-sense
handle is bound return its (finite) reading, otherwise finite-difference the
measured position against the cached previous position; when the cache still
holds its NaN sentinel the estimate is NaN (`none`).  The caller contract
requires `dt > 0`. -/
def get_velocity (jvelh : Option ℚ) (jposVal : ℚ) (prev_pos : Option ℚ)
    (dt : ℚ) : Option ℚ :=
  match jvelh with
  | some v => some v
  | none =>
    match prev_pos with
    | some p => some ((jposVal - p) / dt)
    | none => none

/-- State of a `PositionJointSaturationHandle`: the owned `JointLimits`, the
position window fixed at construction, and the mutable cache inherited from
`JointSaturationLimitHandle` (`prev_pos` = `none` is the NaN sentinel). -/
structure PositionJointSaturationHandle where
  limits : JointLimits
  min_pos_limit : ℚ
  max_pos_limit : ℚ
  prev_pos : Option ℚ := none
  prev_vel : ℚ := 0
  deriving DecidableEq

/-- Model of the `PositionJointSaturationHandle` constructor: never throws;
the window is the hard position band when declared, else `±DBL_MAX`. -/
def PositionJointSaturationHandle.construct (limits : JointLimits) :
    Except String PositionJointSaturationHandle :=
  .ok
    { limits := limits
      min_pos_limit := if limits.has_position_limits then limits.min_position else -DBL_MAX
      max_pos_limit := if limits.has_position_limits then limits.max_position else DBL_MAX
      prev_pos := none
      prev_vel := 0 }

/-- Result of one `PositionJointSaturationHandle::enforceLimits` cycle: the
written command, the interval computed for the cycle, and the new state. -/
structure PosSatResult where
  cmd : ℚ
  min_pos : ℚ
  max_pos : ℚ
  next : PositionJointSaturationHandle
  deriving DecidableEq

/-- The current position used by `PositionJointSaturationHandle::enforceLimits`:
the cached previous command position, seeded from the measured position on the
first cycle (`isnan(prev_pos_)`). -/
def PositionJointSaturationHandle.curPos (h : PositionJointSaturationHandle)
    (jpos : ℚ) : ℚ :=
  match h.prev_pos with
  | none => jpos
  | some p => p

/-- Model of `PositionJointSaturationHandle::enforceLimits`. -/
def PositionJointSaturationHandle.enforceLimits
    (h : PositionJointSaturationHandle) (jpos cmd_in dt : ℚ) : PosSatResult :=
  let prev := h.curPos jpos
  let min_pos :=
    if h.limits.has_velocity_limits then
      stdMaxQ (prev - h.limits.max_velocity * dt) h.min_pos_limit
    else h.min_pos_limit
  let max_pos :=
    if h.limits.has_velocity_limits then
      stdMinQ (prev + h.limits.max_velocity * dt) h.max_pos_limit
    else h.max_pos_limit
  let cmd := clamp cmd_in min_pos max_pos
  { cmd := cmd
    min_pos := min_pos
    max_pos := max_pos
    next := { h with prev_pos := some cmd } }

/-- State of a `PositionJointSoftLimitsHandle`: the owned limit specifications
plus the mutable cache inherited from the base class. -/
structure PositionJointSoftLimitsHandle where
  limits : JointLimits
  soft_limits : SoftJointLimits
  prev_pos : Option ℚ := none
  prev_vel : ℚ := 0
  deriving DecidableEq

/-- Model of the `PositionJointSoftLimitsHandle` constructor: throws when the
supplied `JointLimits` has no velocity limits specification. -/
def PositionJointSoftLimitsHandle.construct (limits : JointLimits)
    (soft_limits : SoftJointLimits) :
    Except String PositionJointSoftLimitsHandle :=
  if !limits.has_velocity_limits then
    .error "Cannot enforce limits: no velocity limits specification."
  else
    .ok { limits := limits, soft_limits := soft_limits, prev_pos := none, prev_vel := 0 }

/-- Result of one `PositionJointSoftLimitsHandle::enforceLimits` cycle. -/
structure PosSoftResult where
  soft_min_vel : ℚ
  soft_max_vel : ℚ
  pos_low : ℚ
  pos_high : ℚ
  cmd : ℚ
  next : PositionJointSoftLimitsHandle
  deriving DecidableEq

/-- The current position used by `PositionJointSoftLimitsHandle::enforceLimits`:
the cached previous command position, seeded from the measured position only on
the first cycle. -/
def PositionJointSoftLimitsHandle.curPos (h : PositionJointSoftLimitsHandle)
    (jpos : ℚ) : ℚ :=
  match h.prev_pos with
  | none => jpos
  | some p => p

/-- Model of `PositionJointSoftLimitsHandle::enforceLimits`.  The cached
position is updated from the value just written to the command handle, which is
numerically the clamped command. -/
def PositionJointSoftLimitsHandle.enforceLimits
    (h : PositionJointSoftLimitsHandle) (jpos cmd_in dt : ℚ) : PosSoftResult :=
  let pos := h.curPos jpos
  let soft_min_vel :=
    if h.limits.has_position_limits then
      clamp (-h.soft_limits.k_position * (pos - h.soft_limits.min_position))
        (-h.limits.max_velocity) h.limits.max_velocity
    else -h.limits.max_velocity
  let soft_max_vel :=
    if h.limits.has_position_limits then
      clamp (-h.soft_limits.k_position * (pos - h.soft_limits.max_position))
        (-h.limits.max_velocity) h.limits.max_velocity
    else h.limits.max_velocity
  let pos_low0 := pos + soft_min_vel * dt
  let pos_high0 := pos + soft_max_vel * dt
  let pos_low :=
    if h.limits.has_position_limits then stdMaxQ pos_low0 h.limits.min_position
    else pos_low0
  let pos_high :=
    if h.limits.has_position_limits then stdMinQ pos_high0 h.limits.max_position
    else pos_high0
  let pos_cmd := clamp cmd_in pos_low pos_high
  { soft_min_vel := soft_min_vel
    soft_max_vel := soft_max_vel
    pos_low := pos_low
    pos_high := pos_high
    cmd := pos_cmd
    next := { h with prev_pos := some pos_cmd } }

/-- State of an `EffortJointSaturationHandle`. -/
structure EffortJointSaturationHandle where
  limits : JointLimits
  prev_pos : Option ℚ := none
  prev_vel : ℚ := 0
  deriving DecidableEq

/-- Model of the `EffortJointSaturationHandle` constructors (both the
three-handle form and the two-handle form that passes a null velocity handle):
throws when velocity limits are missing, then when effort limits are missing. -/
def EffortJointSaturationHandle.construct (limits : JointLimits) :
    Except String EffortJointSaturationHandle :=
  if !limits.has_velocity_limits then
    .error "Cannot enforce limits: no velocity limits specification."
  else if !limits.has_effort_limits then
    .error "Cannot enforce limits: no efforts limits specification."
  else
    .ok { limits := limits, prev_pos := none, prev_vel := 0 }

/-- Result of one `EffortJointSaturationHandle::enforceLimits` cycle. -/
structure EffSatResult where
  min_eff : ℚ
  max_eff : ℚ
  cmd : ℚ
  next : EffortJointSaturationHandle
  deriving DecidableEq

/-- The position-and-effort part of the window computed by
`EffortJointSaturationHandle::enforceLimits`: start from
`[-max_effort, max_effort]` and zero out the side that would push a joint whose
measured position is out of bounds further out. -/
def effSatPosWindow (limits : JointLimits) (jpos : ℚ) : ℚ × ℚ :=
  let min_eff := -limits.max_effort
  let max_eff := limits.max_effort
  if limits.has_position_limits then
    if jpos < limits.min_position then (0, max_eff)
    else if limits.max_position < jpos then (min_eff, 0)
    else (min_eff, max_eff)
  else (min_eff, max_eff)

/-- Model of `EffortJointSaturationHandle::enforceLimits`.  The cached state is
not mutated (`prev_pos_` is never assigned by this policy), so `next = h`.  The
velocity comparisons follow IEEE semantics: when the estimated velocity is NaN
(`none`) neither comparison fires. -/
def EffortJointSaturationHandle.enforceLimits
    (h : EffortJointSaturationHandle) (jpos : ℚ) (jvel : Option ℚ)
    (cmd_in dt : ℚ) : EffSatResult :=
  let w := effSatPosWindow h.limits jpos
  let vel := get_velocity jvel jpos h.prev_pos dt
  let w2 :=
    match vel with
    | none => w
    | some v =>
      if v < -h.limits.max_velocity then (0, w.2)
      else if h.limits.max_velocity < v then (w.1, 0)
      else w
  { min_eff := w2.1
    max_eff := w2.2
    cmd := clamp cmd_in w2.1 w2.2
    next := h }

/-- State of an `EffortJointSoftLimitsHandle`. -/
structure EffortJointSoftLimitsHandle where
  limits : JointLimits
  soft_limits : SoftJointLimits
  prev_pos : Option ℚ := none
  prev_vel : ℚ := 0
  deriving DecidableEq

/-- Model of the `EffortJointSoftLimitsHandle` constructors: throws when
velocity limits are missing, then when effort limits are missing. -/
def EffortJointSoftLimitsHandle.construct (limits : JointLimits)
    (soft_limits : SoftJointLimits) :
    Except String EffortJointSoftLimitsHandle :=
  if !limits.has_velocity_limits then
    .error "Cannot enforce limits: no velocity limits specification."
  else if !limits.has_effort_limits then
    .error "Cannot enforce limits: no effort limits specification."
  else
    .ok { limits := limits, soft_limits := soft_limits, prev_pos := none, prev_vel := 0 }

/-- State of a `VelocityJointSaturationHandle`. -/
structure VelocityJointSaturationHandle where
  limits : JointLimits
  prev_pos : Option ℚ := none
  prev_vel : ℚ := 0
  deriving DecidableEq

/-- Model of the `VelocityJointSaturationHandle` constructors (both overloads
perform the same check): throws when velocity limits are missing. -/
def VelocityJointSaturationHandle.construct (limits : JointLimits) :
    Except String VelocityJointSaturationHandle :=
  if !limits.has_velocity_limits then
    .error "Cannot enforce limits: no velocity limits specification."
  else
    .ok { limits := limits, prev_pos := none, prev_vel := 0 }

/-- Result of one `VelocityJointSaturationHandle::enforceLimits` cycle. -/
structure VelSatResult where
  vel_low : ℚ
  vel_high : ℚ
  cmd : ℚ
  next : VelocityJointSaturationHandle
  deriving DecidableEq

/-- Model of `VelocityJointSaturationHandle::enforceLimits`: the written
command is re-read from the command handle into `prev_vel_`, numerically the
clamped value. -/
def VelocityJointSaturationHandle.enforceLimits
    (h : VelocityJointSaturationHandle) (cmd_in dt : ℚ) : VelSatResult :=
  let vel_low :=
    if h.limits.has_acceleration_limits then
      stdMaxQ (h.prev_vel - h.limits.max_acceleration * dt) (-h.limits.max_velocity)
    else -h.limits.max_velocity
  let vel_high :=
    if h.limits.has_acceleration_limits then
      stdMinQ (h.prev_vel + h.limits.max_acceleration * dt) h.limits.max_velocity
    else h.limits.max_velocity
  let vel_cmd := clamp cmd_in vel_low vel_high
  { vel_low := vel_low
    vel_high := vel_high
    cmd := vel_cmd
    next := { h with prev_vel := vel_cmd } }

/-- State of a `VelocityJointSoftLimitsHandle`: includes the velocity cap fixed
at construction. -/
structure VelocityJointSoftLimitsHandle where
  limits : JointLimits
  soft_limits : SoftJointLimits
  max_vel_limit : ℚ
  prev_pos : Option ℚ := none
  prev_vel : ℚ := 0
  deriving DecidableEq

/-- Model of the `VelocityJointSoftLimitsHandle` constructor: never throws; the
velocity cap is the declared velocity limit when present, else `DBL_MAX`. -/
def VelocityJointSoftLimitsHandle.construct (limits : JointLimits)
    (soft_limits : SoftJointLimits) :
    Except String VelocityJointSoftLimitsHandle :=
  .ok
    { limits := limits
      soft_limits := soft_limits
      max_vel_limit := if limits.has_velocity_limits then limits.max_velocity else DBL_MAX
      prev_pos := none
      prev_vel := 0 }

/-- Result of one `VelocityJointSoftLimitsHandle::enforceLimits` cycle: the
velocity bounds may be NaN (`none`) when the acceleration tightening uses a NaN
velocity estimate.  The cached state is never mutated by this policy, so
`next = h`. -/
structure VelSoftResult where
  min_vel : Option ℚ
  max_vel : Option ℚ
  cmd : ℚ
  next : VelocityJointSoftLimitsHandle
  deriving DecidableEq

/-- Model of `VelocityJointSoftLimitsHandle::enforceLimits`. -/
def VelocityJointSoftLimitsHandle.enforceLimits
    (h : VelocityJointSoftLimitsHandle) (jpos : ℚ) (jvel : Option ℚ)
    (cmd_in dt : ℚ) : VelSoftResult :=
  let min_vel0 :=
    if h.limits.has_position_limits then
      clamp (-h.soft_limits.k_position * (jpos - h.soft_limits.min_position))
        (-h.max_vel_limit) h.max_vel_limit
    else -h.max_vel_limit
  let max_vel0 :=
    if h.limits.has_position_limits then
      clamp (-h.soft_limits.k_position * (jpos - h.soft_limits.max_position))
        (-h.max_vel_limit) h.max_vel_limit
    else h.max_vel_limit
  let min_vel :=
    if h.limits.has_acceleration_limits then
      let vel := get_velocity jvel jpos h.prev_pos dt
      stdMax (vel.map (fun v => v - h.limits.max_acceleration * dt)) (some min_vel0)
    else some min_vel0
  let max_vel :=
    if h.limits.has_acceleration_limits then
      let vel := get_velocity jvel jpos h.prev_pos dt
      stdMin (vel.map (fun v => v + h.limits.max_acceleration * dt)) (some max_vel0)
    else some max_vel0
  { min_vel := min_vel
    max_vel := max_vel
    cmd := clampO cmd_in min_vel max_vel
    next := h }

/-- Parameter-source view consumed by `getSoftJointLimits`
(joint_limits_rosparam.hpp): each of the five parameters under
`joint_limits.<joint>` is either present with a value or absent
(`has_parameter` is `Option.isSome`; `get_parameter` succeeds exactly when the
parameter is present). -/
structure SoftParams where
  has_soft_limits : Option Bool := none
  k_position : Option ℚ := none
  k_velocity : Option ℚ := none
  soft_lower_limit : Option ℚ := none
  soft_upper_limit : Option ℚ := none
  deriving DecidableEq

/-- Model of `joint_limits_interface::getSoftJointLimits`: returns whether a
complete soft-limits specification was found, together with the (possibly
updated) `SoftJointLimits` output argument. -/
def getSoftJointLimits (p : SoftParams) (soft_limits : SoftJointLimits) :
    Bool × SoftJointLimits :=
  if p.has_soft_limits.isNone && p.k_velocity.isNone && p.k_position.isNone
      && p.soft_lower_limit.isNone && p.soft_upper_limit.isNone then
    (false, soft_limits)
  else
    match p.has_soft_limits with
    | some hsl =>
      if hsl && p.k_position.isSome && p.k_velocity.isSome
          && p.soft_lower_limit.isSome && p.soft_upper_limit.isSome then
        (true,
          { k_position := p.k_position.getD soft_limits.k_position
            k_velocity := p.k_velocity.getD soft_limits.k_velocity
            min_position := p.soft_lower_limit.getD soft_limits.min_position
            max_position := p.soft_upper_limit.getD soft_limits.max_position })
      else (false, soft_limits)
    | none => (false, soft_limits)

/-- Whether a modelled constructor succeeded (did not throw). -/
def exceptOk {α : Type} : Except String α → Bool
  | .ok _ => true
  | .error _ => false

theorem stdMaxQ_eq_max (a b : ℚ) : stdMaxQ a b = max a b := by
  unfold stdMaxQ
  rcases lt_or_le a b with hab | hab
  · simp [hab, max_eq_right hab.le]
  · simp [not_lt.mpr hab, max_eq_left hab]

theorem stdMinQ_eq_min (a b : ℚ) : stdMinQ a b = min a b := by
  unfold stdMinQ
  rcases lt_or_le b a with hab | hab
  · simp [hab, min_eq_right hab.le]
  · simp [not_lt.mpr hab, min_eq_left hab]

theorem clamp_mem (v lo hi : ℚ) (hle : lo ≤ hi) :
    lo ≤ clamp v lo hi ∧ clamp v lo hi ≤ hi := by
  unfold clamp
  split_ifs with h1 h2
  · exact ⟨le_refl lo, hle⟩
  · exact ⟨hle, le_refl hi⟩
  · exact ⟨not_lt.mp h1, not_lt.mp h2⟩

/-- C2: for a `PositionJointSaturationHandle` with position and velocity limits
present and an initialized cache, `enforceLimits` clamps the proposed command
into the window obtained by intersecting
`[prev_pos - max_velocity * dt, prev_pos + max_velocity * dt]` with the hard
position band, writes the clamped value, and caches the clamped value (not the
measured position) as the new `prev_pos`. -/
theorem posSat_enforceLimits_spec
    (h : PositionJointSaturationHandle) (p jpos cmd dt : ℚ)
    (hv : h.limits.has_velocity_limits = true)
    (hmin : h.min_pos_limit = h.limits.min_position)
    (hmax : h.max_pos_limit = h.limits.max_position)
    (hprev : h.prev_pos = some p) :
    (h.enforceLimits jpos cmd dt).min_pos
        = max (p - h.limits.max_velocity * dt) h.limits.min_position ∧
    (h.enforceLimits jpos cmd dt).max_pos
        = min (p + h.limits.max_velocity * dt) h.limits.max_position ∧
    (h.enforceLimits jpos cmd dt).cmd
        = clamp cmd (max (p - h.limits.max_velocity * dt) h.limits.min_position)
            (min (p + h.limits.max_velocity * dt) h.limits.max_position) ∧
    (h.enforceLimits jpos cmd dt).next.prev_pos
        = some ((h.enforceLimits jpos cmd dt).cmd) := by
  simp [PositionJointSaturationHandle.enforceLimits,
    PositionJointSaturationHandle.curPos, hprev, hv, hmin, hmax,
    stdMaxQ_eq_max, stdMinQ_eq_min]

theorem posSat_enforceLimits_spec_witness :
    (({ limits := { has_position_limits := true, min_position := -1,
                    max_position := 1, has_velocity_limits := true,
                    max_velocity := 2 },
        min_pos_limit := -1, max_pos_limit := 1, prev_pos := some 0,
        prev_vel := 0 } : PositionJointSaturationHandle).enforceLimits 0 5 1).cmd
      = clamp 5 (max ((0 : ℚ) - 2 * 1) (-1)) (min ((0 : ℚ) + 2 * 1) 1) ∧
    (({ limits := { has_position_limits := true, min_position := -1,
                    max_position := 1, has_velocity_limits := true,
                    max_velocity := 2 },
        min_pos_limit := -1, max_pos_limit := 1, prev_pos := some 0,
        prev_vel := 0 } : PositionJointSaturationHandle).enforceLimits 0 5 1).cmd
      = 1 := by
  constructor
  · exact (posSat_enforceLimits_spec _ 0 0 5 1 rfl rfl rfl rfl).2.2.1
  · norm_num [PositionJointSaturationHandle.enforceLimits,
      PositionJointSaturationHandle.curPos, stdMaxQ, stdMinQ, clamp]

/-- C3: for a `VelocityJointSaturationHandle` with acceleration limits present,
`enforceLimits` clamps the command velocity into
`[-max_velocity, max_velocity] ∩ [prev_vel - max_acceleration * dt,
prev_vel + max_acceleration * dt]`, writes it back, and caches the written
value as `prev_vel`. -/
theorem velSat_enforceLimits_spec
    (h : VelocityJointSaturationHandle) (cmd dt : ℚ)
    (ha : h.limits.has_acceleration_limits = true) :
    (h.enforceLimits cmd dt).vel_low
        = max (h.prev_vel - h.limits.max_acceleration * dt) (-h.limits.max_velocity) ∧
    (h.enforceLimits cmd dt).vel_high
        = min (h.prev_vel + h.limits.max_acceleration * dt) h.limits.max_velocity ∧
    (h.enforceLimits cmd dt).cmd
        = clamp cmd (max (h.prev_vel - h.limits.max_acceleration * dt) (-h.limits.max_velocity))
            (min (h.prev_vel + h.limits.max_acceleration * dt) h.limits.max_velocity) ∧
    (h.enforceLimits cmd dt).next.prev_vel = (h.enforceLimits cmd dt).cmd := by
  simp [VelocityJointSaturationHandle.enforceLimits, ha,
    stdMaxQ_eq_max, stdMinQ_eq_min]

theorem velSat_enforceLimits_spec_witness :
    (({ limits := { has_velocity_limits := true, max_velocity := 10,
                    has_acceleration_limits := true, max_acceleration := 1 },
        prev_pos := none, prev_vel := 0 }
        : VelocityJointSaturationHandle).enforceLimits 100 1).cmd
      = clamp 100 (max ((0 : ℚ) - 1 * 1) (-10)) (min ((0 : ℚ) + 1 * 1) 10) ∧
    (({ limits := { has_velocity_limits := true, max_velocity := 10,
                    has_acceleration_limits := true, max_acceleration := 1 },
        prev_pos := none, prev_vel := 0 }
        : VelocityJointSaturationHandle).enforceLimits 100 1).cmd = 1 ∧
    (({ limits := { has_velocity_limits := true, max_velocity := 10,
                    has_acceleration_limits := true, max_acceleration := 1 },
        prev_pos := none, prev_vel := 0 }
        : VelocityJointSaturationHandle).enforceLimits 100 1).next.prev_vel = 1 := by
  refine ⟨(velSat_enforceLimits_spec _ 100 1 rfl).2.2.1, ?_, ?_⟩ <;>
    norm_num [VelocityJointSaturationHandle.enforceLimits, stdMaxQ, stdMinQ, clamp]

theorem stdMax_some_some (a b : ℚ) : stdMax (some a) (some b) = some (stdMaxQ a b) := by
  unfold stdMax stdMaxQ oLt
  split_ifs with h1 h2 h2 <;> simp_all

theorem stdMin_some_some (a b : ℚ) : stdMin (some a) (some b) = some (stdMinQ a b) := by
  unfold stdMin stdMinQ oLt
  split_ifs with h1 h2 h2 <;> simp_all

theorem stdMax_none_left (b : Option ℚ) : stdMax none b = none := by
  cases b <;> rfl

theorem stdMin_none_left (b : Option ℚ) : stdMin none b = none := by
  cases b <;> rfl

/-- C5: the Position-Soft, Effort-Saturation, Effort-Soft and
Velocity-Saturation constructors throw exactly when `has_velocity_limits` is
false (the two effort constructors additionally when `has_effort_limits` is
false), while the Position-Saturation and Velocity-Soft constructors never
throw: success depends on no other limit field. -/
theorem construct_requires_limits (l : JointLimits) (s : SoftJointLimits) :
    exceptOk (PositionJointSoftLimitsHandle.construct l s) = l.has_velocity_limits ∧
    exceptOk (EffortJointSaturationHandle.construct l)
      = (l.has_velocity_limits && l.has_effort_limits) ∧
    exceptOk (EffortJointSoftLimitsHandle.construct l s)
      = (l.has_velocity_limits && l.has_effort_limits) ∧
    exceptOk (VelocityJointSaturationHandle.construct l) = l.has_velocity_limits ∧
    exceptOk (PositionJointSaturationHandle.construct l) = true ∧
    exceptOk (VelocityJointSoftLimitsHandle.construct l s) = true := by
  cases hv : l.has_velocity_limits <;> cases he : l.has_effort_limits <;>
    simp [PositionJointSoftLimitsHandle.construct,
      EffortJointSaturationHandle.construct, EffortJointSoftLimitsHandle.construct,
      VelocityJointSaturationHandle.construct, PositionJointSaturationHandle.construct,
      VelocityJointSoftLimitsHandle.construct, exceptOk, hv, he]

/-- C6: constructing a `VelocityJointSoftLimitsHandle` from a `JointLimits`
without velocity limits succeeds, with the internal velocity cap defaulting to
the largest finite double, whereas the `VelocityJointSaturationHandle`
constructor throws for the same `JointLimits`. -/
theorem velSoft_construct_unconstrained_cap (l : JointLimits) (s : SoftJointLimits)
    (hv : l.has_velocity_limits = false) :
    VelocityJointSoftLimitsHandle.construct l s
      = .ok { limits := l, soft_limits := s, max_vel_limit := DBL_MAX,
              prev_pos := none, prev_vel := 0 } ∧
    exceptOk (VelocityJointSaturationHandle.construct l) = false := by
  constructor
  · simp [VelocityJointSoftLimitsHandle.construct, hv]
  · simp [VelocityJointSaturationHandle.construct, exceptOk, hv]

theorem velSoft_construct_unconstrained_cap_witness :
    ({} : JointLimits).has_velocity_limits = false ∧
    (VelocityJointSoftLimitsHandle.construct {} {}
      = .ok { limits := {}, soft_limits := {}, max_vel_limit := DBL_MAX,
              prev_pos := none, prev_vel := 0 } ∧
     exceptOk (VelocityJointSaturationHandle.construct {}) = false) :=
  ⟨rfl, velSoft_construct_unconstrained_cap {} {} rfl⟩

theorem clamp_zero_of_nonneg (V : ℚ) (hV : 0 ≤ V) : clamp 0 (-V) V = 0 := by
  unfold clamp
  have h1 : ¬((0 : ℚ) < -V) := by linarith
  have h2 : ¬(V < (0 : ℚ)) := by linarith
  simp [h1, h2]

/-- C7: for a `PositionJointSoftLimitsHandle` with position limits present
whose cached position equals the soft lower position bound, the computed
`soft_min_vel` is `clamp 0 (-max_velocity) max_velocity`, which is `0` for a
nonnegative velocity limit, so (when the soft bound does not lie below the hard
one) the lower position bound for the cycle equals the cached position
itself. -/
theorem posSoft_soft_band_edge
    (h : PositionJointSoftLimitsHandle) (jpos cmd dt : ℚ)
    (hp : h.limits.has_position_limits = true)
    (hprev : h.prev_pos = some h.soft_limits.min_position) :
    (h.enforceLimits jpos cmd dt).soft_min_vel
        = clamp 0 (-h.limits.max_velocity) h.limits.max_velocity ∧
    (0 ≤ h.limits.max_velocity →
      (h.enforceLimits jpos cmd dt).soft_min_vel = 0) ∧
    (0 ≤ h.limits.max_velocity →
      h.limits.min_position ≤ h.soft_limits.min_position →
      (h.enforceLimits jpos cmd dt).pos_low = h.soft_limits.min_position) := by
  have hvel : (h.enforceLimits jpos cmd dt).soft_min_vel
      = clamp 0 (-h.limits.max_velocity) h.limits.max_velocity := by
    simp [PositionJointSoftLimitsHandle.enforceLimits,
      PositionJointSoftLimitsHandle.curPos, hprev, hp]
  refine ⟨hvel, fun hV => ?_, fun hV hlo => ?_⟩
  · rw [hvel, clamp_zero_of_nonneg _ hV]
  · have h0 : -h.soft_limits.k_position
        * (h.soft_limits.min_position - h.soft_limits.min_position) = 0 := by ring
    simp only [PositionJointSoftLimitsHandle.enforceLimits,
      PositionJointSoftLimitsHandle.curPos, hprev, hp, if_true, h0,
      clamp_zero_of_nonneg _ hV, zero_mul, add_zero, stdMaxQ_eq_max]
    exact max_eq_left hlo

theorem posSoft_soft_band_edge_witness :
    (({ limits := { has_position_limits := true, min_position := -1,
                    max_position := 1, has_velocity_limits := true,
                    max_velocity := 2 },
        soft_limits := { min_position := 1/2, max_position := 3/4,
                         k_position := 10, k_velocity := 10 },
        prev_pos := some (1/2), prev_vel := 0 }
        : PositionJointSoftLimitsHandle).enforceLimits 0 0 1).soft_min_vel
      = clamp 0 (-2) 2 ∧
    (({ limits := { has_position_limits := true, min_position := -1,
                    max_position := 1, has_velocity_limits := true,
                    max_velocity := 2 },
        soft_limits := { min_position := 1/2, max_position := 3/4,
                         k_position := 10, k_velocity := 10 },
        prev_pos := some (1/2), prev_vel := 0 }
        : PositionJointSoftLimitsHandle).enforceLimits 0 0 1).soft_min_vel = 0 ∧
    (({ limits := { has_position_limits := true, min_position := -1,
                    max_position := 1, has_velocity_limits := true,
                    max_velocity := 2 },
        soft_limits := { min_position := 1/2, max_position := 3/4,
                         k_position := 10, k_velocity := 10 },
        prev_pos := some (1/2), prev_vel := 0 }
        : PositionJointSoftLimitsHandle).enforceLimits 0 0 1).pos_low = 1/2 := by
  have h := posSoft_soft_band_edge
    ({ limits := { has_position_limits := true, min_position := -1,
                   max_position := 1, has_velocity_limits := true,
                   max_velocity := 2 },
       soft_limits := { min_position := 1/2, max_position := 3/4,
                        k_position := 10, k_velocity := 10 },
       prev_pos := some (1/2), prev_vel := 0 }
      : PositionJointSoftLimitsHandle) 0 0 1 rfl rfl
  exact ⟨h.1, h.2.1 (by norm_num), h.2.2 (by norm_num) (by norm_num)⟩

/-- C8 counterexample: a parameter source holding all four soft fields but no
`has_soft_limits` parameter makes `getSoftJointLimits` return `false`, against
the claim that presence of the four soft fields alone forces `true`. -/
theorem getSoftJointLimits_needs_has_soft_limits :
    (getSoftJointLimits
      { has_soft_limits := none, k_position := some 1, k_velocity := some 1,
        soft_lower_limit := some 0, soft_upper_limit := some 1 } {}).1 = false ∧
    ({ has_soft_limits := none, k_position := some 1, k_velocity := some 1,
       soft_lower_limit := some 0, soft_upper_limit := some 1 }
       : SoftParams).k_position.isSome = true ∧
    ({ has_soft_limits := none, k_position := some 1, k_velocity := some 1,
       soft_lower_limit := some 0, soft_upper_limit := some 1 }
       : SoftParams).k_velocity.isSome = true ∧
    ({ has_soft_limits := none, k_position := some 1, k_velocity := some 1,
       soft_lower_limit := some 0, soft_upper_limit := some 1 }
       : SoftParams).soft_lower_limit.isSome = true ∧
    ({ has_soft_limits := none, k_position := some 1, k_velocity := some 1,
       soft_lower_limit := some 0, soft_upper_limit := some 1 }
       : SoftParams).soft_upper_limit.isSome = true := by
  refine ⟨?_, rfl, rfl, rfl, rfl⟩
  rfl

/-- C8 (amended): `getSoftJointLimits` reports success and populates the
output exactly when the `has_soft_limits` parameter is present with value
`true` and all four soft fields are present; in every other case it returns
`false` and leaves the caller-supplied `SoftJointLimits` untouched. -/
theorem getSoftJointLimits_spec (p : SoftParams) (s : SoftJointLimits) :
    ((getSoftJointLimits p s).1 = true ↔
      (p.has_soft_limits = some true ∧ p.k_position.isSome = true ∧
       p.k_velocity.isSome = true ∧ p.soft_lower_limit.isSome = true ∧
       p.soft_upper_limit.isSome = true)) ∧
    ((getSoftJointLimits p s).1 = false → (getSoftJointLimits p s).2 = s) := by
  rcases p with ⟨hsl, kp, kv, sl, su⟩
  cases hsl with
  | none =>
    cases kp <;> cases kv <;> cases sl <;> cases su <;> simp [getSoftJointLimits]
  | some b =>
    cases b <;> cases kp <;> cases kv <;> cases sl <;> cases su <;>
      simp [getSoftJointLimits]

theorem getSoftJointLimits_spec_witness :
    ((getSoftJointLimits
      { has_soft_limits := some true, k_position := some 2, k_velocity := some 3,
        soft_lower_limit := some 0, soft_upper_limit := some 1 } {}).1 = true ↔
      (({ has_soft_limits := some true, k_position := some 2, k_velocity := some 3,
          soft_lower_limit := some 0, soft_upper_limit := some 1 }
          : SoftParams).has_soft_limits = some true ∧
       ({ has_soft_limits := some true, k_position := some 2, k_velocity := some 3,
          soft_lower_limit := some 0, soft_upper_limit := some 1 }
          : SoftParams).k_position.isSome = true ∧
       ({ has_soft_limits := some true, k_position := some 2, k_velocity := some 3,
          soft_lower_limit := some 0, soft_upper_limit := some 1 }
          : SoftParams).k_velocity.isSome = true ∧
       ({ has_soft_limits := some true, k_position := some 2, k_velocity := some 3,
          soft_lower_limit := some 0, soft_upper_limit := some 1 }
          : SoftParams).soft_lower_limit.isSome = true ∧
       ({ has_soft_limits := some true, k_position := some 2, k_velocity := some 3,
          soft_lower_limit := some 0, soft_upper_limit := some 1 }
          : SoftParams).soft_upper_limit.isSome = true)) ∧
    ((getSoftJointLimits
      { has_soft_limits := some true, k_position := some 2, k_velocity := some 3,
        soft_lower_limit := some 0, soft_upper_limit := some 1 } {}).1 = false →
     (getSoftJointLimits
      { has_soft_limits := some true, k_position := some 2, k_velocity := some 3,
        soft_lower_limit := some 0, soft_upper_limit := some 1 } {}).2 = {}) :=
  getSoftJointLimits_spec
    { has_soft_limits := some true, k_position := some 2, k_velocity := some 3,
      soft_lower_limit := some 0, soft_upper_limit := some 1 } {}

/-- C9: an `EffortJointSaturationHandle` driven without a velocity-sense
handle keeps its cached position at the NaN sentinel (the policy never assigns
it), so the velocity estimate is NaN every cycle, neither velocity comparison
fires, and the enforced window is exactly the position-and-effort window. -/
theorem effSat_no_velocity_handle
    (h : EffortJointSaturationHandle) (jpos cmd dt : ℚ)
    (hprev : h.prev_pos = none) :
    get_velocity none jpos h.prev_pos dt = none ∧
    ((h.enforceLimits jpos none cmd dt).min_eff,
     (h.enforceLimits jpos none cmd dt).max_eff) = effSatPosWindow h.limits jpos ∧
    (h.enforceLimits jpos none cmd dt).next = h := by
  simp [EffortJointSaturationHandle.enforceLimits, get_velocity, hprev]

theorem effSat_no_velocity_handle_witness :
    get_velocity none 2
      ({ limits := { has_position_limits := true, min_position := -1,
                     max_position := 1, has_velocity_limits := true,
                     max_velocity := 5, has_effort_limits := true,
                     max_effort := 20 }, prev_pos := none, prev_vel := 0 }
        : EffortJointSaturationHandle).prev_pos 1 = none ∧
    ((({ limits := { has_position_limits := true, min_position := -1,
                     max_position := 1, has_velocity_limits := true,
                     max_velocity := 5, has_effort_limits := true,
                     max_effort := 20 }, prev_pos := none, prev_vel := 0 }
        : EffortJointSaturationHandle).enforceLimits 2 none 15 1).min_eff,
     (({ limits := { has_position_limits := true, min_position := -1,
                     max_position := 1, has_velocity_limits := true,
                     max_velocity := 5, has_effort_limits := true,
                     max_effort := 20 }, prev_pos := none, prev_vel := 0 }
        : EffortJointSaturationHandle).enforceLimits 2 none 15 1).max_eff)
      = effSatPosWindow
          { has_position_limits := true, min_position := -1, max_position := 1,
            has_velocity_limits := true, max_velocity := 5,
            has_effort_limits := true, max_effort := 20 } 2 ∧
    (({ limits := { has_position_limits := true, min_position := -1,
                    max_position := 1, has_velocity_limits := true,
                    max_velocity := 5, has_effort_limits := true,
                    max_effort := 20 }, prev_pos := none, prev_vel := 0 }
        : EffortJointSaturationHandle).enforceLimits 2 none 15 1).next
      = { limits := { has_position_limits := true, min_position := -1,
                      max_position := 1, has_velocity_limits := true,
                      max_velocity := 5, has_effort_limits := true,
                      max_effort := 20 }, prev_pos := none, prev_vel := 0 } :=
  effSat_no_velocity_handle _ 2 15 1 rfl

/-- C10: a `VelocityJointSoftLimitsHandle` with acceleration limits present but
no velocity-sense handle bound finite-differences against a cached position no
operation of this policy ever updates from its NaN sentinel, so both tightened
velocity bounds are NaN and the written command passes through unconstrained
that cycle. -/
theorem velSoft_nan_bounds_unconstrained
    (h : VelocityJointSoftLimitsHandle) (jpos cmd dt : ℚ)
    (hprev : h.prev_pos = none)
    (ha : h.limits.has_acceleration_limits = true) :
    get_velocity none jpos h.prev_pos dt = none ∧
    (h.enforceLimits jpos none cmd dt).min_vel = none ∧
    (h.enforceLimits jpos none cmd dt).max_vel = none ∧
    (h.enforceLimits jpos none cmd dt).cmd = cmd ∧
    (h.enforceLimits jpos none cmd dt).next = h := by
  simp [VelocityJointSoftLimitsHandle.enforceLimits, get_velocity, hprev, ha,
    stdMax_none_left, stdMin_none_left, clampO]

theorem velSoft_nan_bounds_unconstrained_witness :
    get_velocity none 0
      ({ limits := { has_position_limits := true, min_position := -1,
                     max_position := 1, has_velocity_limits := true,
                     max_velocity := 2, has_acceleration_limits := true,
                     max_acceleration := 1 },
         soft_limits := { min_position := -1/2, max_position := 1/2,
                          k_position := 10, k_velocity := 10 },
         max_vel_limit := 2, prev_pos := none, prev_vel := 0 }
        : VelocityJointSoftLimitsHandle).prev_pos 1 = none ∧
    (({ limits := { has_position_limits := true, min_position := -1,
                    max_position := 1, has_velocity_limits := true,
                    max_velocity := 2, has_acceleration_limits := true,
                    max_acceleration := 1 },
        soft_limits := { min_position := -1/2, max_position := 1/2,
                         k_position := 10, k_velocity := 10 },
        max_vel_limit := 2, prev_pos := none, prev_vel := 0 }
        : VelocityJointSoftLimitsHandle).enforceLimits 0 none 100 1).min_vel = none ∧
    (({ limits := { has_position_limits := true, min_position := -1,
                    max_position := 1, has_velocity_limits := true,
                    max_velocity := 2, has_acceleration_limits := true,
                    max_acceleration := 1 },
        soft_limits := { min_position := -1/2, max_position := 1/2,
                         k_position := 10, k_velocity := 10 },
        max_vel_limit := 2, prev_pos := none, prev_vel := 0 }
        : VelocityJointSoftLimitsHandle).enforceLimits 0 none 100 1).max_vel = none ∧
    (({ limits := { has_position_limits := true, min_position := -1,
                    max_position := 1, has_velocity_limits := true,
                    max_velocity := 2, has_acceleration_limits := true,
                    max_acceleration := 1 },
        soft_limits := { min_position := -1/2, max_position := 1/2,
                         k_position := 10, k_velocity := 10 },
        max_vel_limit := 2, prev_pos := none, prev_vel := 0 }
        : VelocityJointSoftLimitsHandle).enforceLimits 0 none 100 1).cmd = 100 ∧
    (({ limits := { has_position_limits := true, min_position := -1,
                    max_position := 1, has_velocity_limits := true,
                    max_velocity := 2, has_acceleration_limits := true,
                    max_acceleration := 1 },
        soft_limits := { min_position := -1/2, max_position := 1/2,
                         k_position := 10, k_velocity := 10 },
        max_vel_limit := 2, prev_pos := none, prev_vel := 0 }
        : VelocityJointSoftLimitsHandle).enforceLimits 0 none 100 1).next
      = { limits := { has_position_limits := true, min_position := -1,
                      max_position := 1, has_velocity_limits := true,
                      max_velocity := 2, has_acceleration_limits := true,
                      max_acceleration := 1 },
          soft_limits := { min_position := -1/2, max_position := 1/2,
                           k_position := 10, k_velocity := 10 },
          max_vel_limit := 2, prev_pos := none, prev_vel := 0 } :=
  velSoft_nan_bounds_unconstrained _ 0 100 1 rfl rfl

/-- C4 counterexample: with the measured position above `max_position` but an
estimated velocity below `-max_velocity`, the lower bound of the effort window
is zeroed as well — it does not stay at `-max_effort` as claimed. -/
theorem effSat_velocity_can_zero_lower_bound :
    (({ limits := { has_position_limits := true, min_position := -1,
                    max_position := 1, has_velocity_limits := true,
                    max_velocity := 5, has_effort_limits := true,
                    max_effort := 20 }, prev_pos := none, prev_vel := 0 }
        : EffortJointSaturationHandle).enforceLimits 2 (some (-10)) 15 1).min_eff
      = 0 ∧
    ¬((({ limits := { has_position_limits := true, min_position := -1,
                      max_position := 1, has_velocity_limits := true,
                      max_velocity := 5, has_effort_limits := true,
                      max_effort := 20 }, prev_pos := none, prev_vel := 0 }
        : EffortJointSaturationHandle).enforceLimits 2 (some (-10)) 15 1).min_eff
      = -20) ∧
    ({ has_position_limits := true, min_position := -1, max_position := 1,
       has_velocity_limits := true, max_velocity := 5,
       has_effort_limits := true, max_effort := 20 }
       : JointLimits).max_position < 2 := by
  refine ⟨?_, ?_, ?_⟩ <;>
    norm_num [EffortJointSaturationHandle.enforceLimits, effSatPosWindow,
      get_velocity, clamp]

/-- C4 (amended): with position limits present and a well-formed position band,
a measured position above `max_position` forces the upper bound of the effort
window to `0`, and the lower bound remains `-max_effort` provided the estimated
velocity does not also fall below `-max_velocity`; symmetrically for a measured
position below `min_position`. -/
theorem effSat_position_violation
    (h : EffortJointSaturationHandle) (jpos : ℚ) (jvel : Option ℚ) (cmd dt : ℚ)
    (hp : h.limits.has_position_limits = true)
    (hwf : h.limits.min_position ≤ h.limits.max_position) :
    (h.limits.max_position < jpos →
      (∀ v, get_velocity jvel jpos h.prev_pos dt = some v →
        -h.limits.max_velocity ≤ v) →
      (h.enforceLimits jpos jvel cmd dt).min_eff = -h.limits.max_effort ∧
      (h.enforceLimits jpos jvel cmd dt).max_eff = 0) ∧
    (jpos < h.limits.min_position →
      (∀ v, get_velocity jvel jpos h.prev_pos dt = some v →
        v ≤ h.limits.max_velocity) →
      (h.enforceLimits jpos jvel cmd dt).min_eff = 0 ∧
      (h.enforceLimits jpos jvel cmd dt).max_eff = h.limits.max_effort) := by
  constructor
  · intro hgt hv
    have hnlt : ¬(jpos < h.limits.min_position) := by linarith
    have hw : effSatPosWindow h.limits jpos = (-h.limits.max_effort, 0) := by
      simp [effSatPosWindow, hp, hnlt, hgt]
    cases hvel : get_velocity jvel jpos h.prev_pos dt with
    | none => simp [EffortJointSaturationHandle.enforceLimits, hvel, hw]
    | some v =>
      have hnv : ¬(v < -h.limits.max_velocity) := not_lt.mpr (hv v hvel)
      by_cases hgt2 : h.limits.max_velocity < v
      · simp [EffortJointSaturationHandle.enforceLimits, hvel, hw, hnv, hgt2]
      · simp [EffortJointSaturationHandle.enforceLimits, hvel, hw, hnv, hgt2]
  · intro hlt hv
    have hw : effSatPosWindow h.limits jpos = (0, h.limits.max_effort) := by
      simp [effSatPosWindow, hp, hlt]
    cases hvel : get_velocity jvel jpos h.prev_pos dt with
    | none => simp [EffortJointSaturationHandle.enforceLimits, hvel, hw]
    | some v =>
      have hnv : ¬(h.limits.max_velocity < v) := not_lt.mpr (hv v hvel)
      by_cases hlt2 : v < -h.limits.max_velocity
      · simp [EffortJointSaturationHandle.enforceLimits, hvel, hw, hnv, hlt2]
      · simp [EffortJointSaturationHandle.enforceLimits, hvel, hw, hnv, hlt2]

theorem effSat_position_violation_witness :
    ((({ limits := { has_position_limits := true, min_position := -1,
                     max_position := 1, has_velocity_limits := true,
                     max_velocity := 5, has_effort_limits := true,
                     max_effort := 20 }, prev_pos := none, prev_vel := 0 }
        : EffortJointSaturationHandle).enforceLimits 2 none 15 1).min_eff = -20 ∧
     (({ limits := { has_position_limits := true, min_position := -1,
                     max_position := 1, has_velocity_limits := true,
                     max_velocity := 5, has_effort_limits := true,
                     max_effort := 20 }, prev_pos := none, prev_vel := 0 }
        : EffortJointSaturationHandle).enforceLimits 2 none 15 1).max_eff = 0) ∧
    (({ limits := { has_position_limits := true, min_position := -1,
                    max_position := 1, has_velocity_limits := true,
                    max_velocity := 5, has_effort_limits := true,
                    max_effort := 20 }, prev_pos := none, prev_vel := 0 }
        : EffortJointSaturationHandle).enforceLimits 2 none 15 1).cmd = 0 := by
  constructor
  · have h := (effSat_position_violation
      ({ limits := { has_position_limits := true, min_position := -1,
                     max_position := 1, has_velocity_limits := true,
                     max_velocity := 5, has_effort_limits := true,
                     max_effort := 20 }, prev_pos := none, prev_vel := 0 }
        : EffortJointSaturationHandle) 2 none 15 1 rfl (by norm_num)).1
      (by norm_num) (fun v hv => by simp [get_velocity] at hv)
    exact ⟨h.1, h.2⟩
  · norm_num [EffortJointSaturationHandle.enforceLimits, effSatPosWindow,
      get_velocity, clamp]

/-- Joint limits used by the C1 scenario: hard position band `[-1, 1]`,
velocity limit `2`. -/
def lC1 : JointLimits :=
  { has_position_limits := true, min_position := -1, max_position := 1,
    has_velocity_limits := true, max_velocity := 2 }

/-- Soft limits used by the C1 scenario. -/
def sC1 : SoftJointLimits :=
  { min_position := -1/2, max_position := 1/2, k_position := 1, k_velocity := 1 }

/-- C1 counterexample: on a first cycle whose measured position (`5`) lies
outside the hard band `[-1, 1]`, the freshly constructed position-saturation
handle computes the window `[3, 1]`: its lower bound exceeds the declared hard
maximum and the written command (`1`) does not lie within the computed
interval. -/
theorem posSat_first_cycle_window_violation :
    PositionJointSaturationHandle.construct lC1
      = .ok { limits := lC1, min_pos_limit := -1, max_pos_limit := 1,
              prev_pos := none, prev_vel := 0 } ∧
    (({ limits := lC1, min_pos_limit := -1, max_pos_limit := 1,
        prev_pos := none, prev_vel := 0 }
        : PositionJointSaturationHandle).enforceLimits 5 5 1).min_pos = 3 ∧
    (({ limits := lC1, min_pos_limit := -1, max_pos_limit := 1,
        prev_pos := none, prev_vel := 0 }
        : PositionJointSaturationHandle).enforceLimits 5 5 1).max_pos = 1 ∧
    (({ limits := lC1, min_pos_limit := -1, max_pos_limit := 1,
        prev_pos := none, prev_vel := 0 }
        : PositionJointSaturationHandle).enforceLimits 5 5 1).cmd = 1 ∧
    ¬((({ limits := lC1, min_pos_limit := -1, max_pos_limit := 1,
          prev_pos := none, prev_vel := 0 }
        : PositionJointSaturationHandle).enforceLimits 5 5 1).min_pos
        ≤ (({ limits := lC1, min_pos_limit := -1, max_pos_limit := 1,
              prev_pos := none, prev_vel := 0 }
            : PositionJointSaturationHandle).enforceLimits 5 5 1).cmd) ∧
    ¬((({ limits := lC1, min_pos_limit := -1, max_pos_limit := 1,
          prev_pos := none, prev_vel := 0 }
        : PositionJointSaturationHandle).enforceLimits 5 5 1).min_pos
        ≤ lC1.max_position) := by
  refine ⟨rfl, ?_, ?_, ?_, ?_, ?_⟩ <;>
    norm_num [PositionJointSaturationHandle.enforceLimits,
      PositionJointSaturationHandle.curPos, lC1, stdMaxQ, stdMinQ, clamp]


theorem posSat_window_bounds (h : PositionJointSaturationHandle) (jpos cmd dt : ℚ) :
    h.min_pos_limit ≤ (h.enforceLimits jpos cmd dt).min_pos ∧
    (h.enforceLimits jpos cmd dt).max_pos ≤ h.max_pos_limit ∧
    ((h.enforceLimits jpos cmd dt).min_pos ≤ (h.enforceLimits jpos cmd dt).max_pos →
      (h.enforceLimits jpos cmd dt).min_pos ≤ (h.enforceLimits jpos cmd dt).cmd ∧
      (h.enforceLimits jpos cmd dt).cmd ≤ (h.enforceLimits jpos cmd dt).max_pos) := by
  cases hv : h.limits.has_velocity_limits
  · simp only [PositionJointSaturationHandle.enforceLimits, hv,
      Bool.false_eq_true, if_false]
    exact ⟨le_refl _, le_refl _, fun hle => clamp_mem _ _ _ hle⟩
  · simp only [PositionJointSaturationHandle.enforceLimits, hv, if_true,
      stdMaxQ_eq_max, stdMinQ_eq_min]
    exact ⟨le_max_right _ _, min_le_right _ _, fun hle => clamp_mem _ _ _ hle⟩

theorem posSoft_window_bounds (h : PositionJointSoftLimitsHandle) (jpos cmd dt : ℚ)
    (hp : h.limits.has_position_limits = true) :
    h.limits.min_position ≤ (h.enforceLimits jpos cmd dt).pos_low ∧
    (h.enforceLimits jpos cmd dt).pos_high ≤ h.limits.max_position ∧
    ((h.enforceLimits jpos cmd dt).pos_low ≤ (h.enforceLimits jpos cmd dt).pos_high →
      (h.enforceLimits jpos cmd dt).pos_low ≤ (h.enforceLimits jpos cmd dt).cmd ∧
      (h.enforceLimits jpos cmd dt).cmd ≤ (h.enforceLimits jpos cmd dt).pos_high) := by
  simp only [PositionJointSoftLimitsHandle.enforceLimits, hp, if_true,
    stdMaxQ_eq_max, stdMinQ_eq_min]
  exact ⟨le_max_right _ _, min_le_right _ _, fun hle => clamp_mem _ _ _ hle⟩

theorem velSoft_window_bounds (h : VelocityJointSoftLimitsHandle)
    (jpos : ℚ) (jvel : Option ℚ) (cmd dt : ℚ)
    (hV : 0 ≤ h.max_vel_limit) (lo hi : ℚ)
    (hlo : (h.enforceLimits jpos jvel cmd dt).min_vel = some lo)
    (hhi : (h.enforceLimits jpos jvel cmd dt).max_vel = some hi) :
    (-h.max_vel_limit ≤ lo ∧ hi ≤ h.max_vel_limit) ∧
    (lo ≤ hi → lo ≤ (h.enforceLimits jpos jvel cmd dt).cmd ∧
      (h.enforceLimits jpos jvel cmd dt).cmd ≤ hi) := by
  have hVV : -h.max_vel_limit ≤ h.max_vel_limit := by linarith
  cases ha : h.limits.has_acceleration_limits
  · cases hp2 : h.limits.has_position_limits
    · simp [VelocityJointSoftLimitsHandle.enforceLimits, ha, hp2, clampO]
        at hlo hhi ⊢
      subst hlo
      subst hhi
      exact ⟨⟨le_refl _, le_refl _⟩, fun hle => clamp_mem _ _ _ hle⟩
    · simp [VelocityJointSoftLimitsHandle.enforceLimits, ha, hp2, clampO]
        at hlo hhi ⊢
      subst hlo
      subst hhi
      refine ⟨⟨(clamp_mem _ _ _ hVV).1, (clamp_mem _ _ _ hVV).2⟩,
        fun hle => clamp_mem _ _ _ hle⟩
  · cases hvel : get_velocity jvel jpos h.prev_pos dt with
    | none =>
      simp [VelocityJointSoftLimitsHandle.enforceLimits, ha, hvel,
        stdMax_none_left] at hlo
    | some v =>
      cases hp2 : h.limits.has_position_limits
      · simp [VelocityJointSoftLimitsHandle.enforceLimits, ha, hp2, hvel,
          stdMax_some_some, stdMin_some_some, stdMaxQ_eq_max, stdMinQ_eq_min,
          clampO] at hlo hhi ⊢
        subst hlo
        subst hhi
        exact ⟨⟨le_max_right _ _, min_le_right _ _⟩,
          fun hle => clamp_mem _ _ _ hle⟩
      · simp [VelocityJointSoftLimitsHandle.enforceLimits, ha, hp2, hvel,
          stdMax_some_some, stdMin_some_some, stdMaxQ_eq_max, stdMinQ_eq_min,
          clampO] at hlo hhi ⊢
        subst hlo
        subst hhi
        refine ⟨⟨le_trans (clamp_mem _ _ _ hVV).1 (le_max_right _ _),
          le_trans (min_le_right _ _) (clamp_mem _ _ _ hVV).2⟩,
          fun hle => clamp_mem _ _ _ hle⟩

/-- C1 (amended): for every reachable cached state of the three cited
policies, each bound of the interval computed for the cycle respects its own
side of the hard band whose `has_*` flag is set (so the interval, as a set, is
contained in the hard band), and whenever the interval is nonempty the written
command lies within it.  On a first cycle seeded from a measured position
outside the hard band the interval can be empty; the written value then need
not lie within it and the inner bound can fall outside the hard band (see the
counterexample). -/
theorem enforce_window_subset_and_clamped
    (l : JointLimits) (s : SoftJointLimits) (pp : Option ℚ)
    (pv jpos cmd dt : ℚ) (jvel : Option ℚ) :
    (∀ h0 r, PositionJointSaturationHandle.construct l = .ok h0 →
      r = ({ h0 with prev_pos := pp, prev_vel := pv }
            : PositionJointSaturationHandle).enforceLimits jpos cmd dt →
      l.has_position_limits = true →
      (l.min_position ≤ r.min_pos ∧ r.max_pos ≤ l.max_position) ∧
      (r.min_pos ≤ r.max_pos → r.min_pos ≤ r.cmd ∧ r.cmd ≤ r.max_pos)) ∧
    (∀ h0 r, PositionJointSoftLimitsHandle.construct l s = .ok h0 →
      r = ({ h0 with prev_pos := pp, prev_vel := pv }
            : PositionJointSoftLimitsHandle).enforceLimits jpos cmd dt →
      l.has_position_limits = true →
      (l.min_position ≤ r.pos_low ∧ r.pos_high ≤ l.max_position) ∧
      (r.pos_low ≤ r.pos_high → r.pos_low ≤ r.cmd ∧ r.cmd ≤ r.pos_high)) ∧
    (∀ h0 r, VelocityJointSoftLimitsHandle.construct l s = .ok h0 →
      r = ({ h0 with prev_pos := pp, prev_vel := pv }
            : VelocityJointSoftLimitsHandle).enforceLimits jpos jvel cmd dt →
      l.has_velocity_limits = true → 0 ≤ l.max_velocity →
      ∀ lo hi, r.min_vel = some lo → r.max_vel = some hi →
        (-l.max_velocity ≤ lo ∧ hi ≤ l.max_velocity) ∧
        (lo ≤ hi → lo ≤ r.cmd ∧ r.cmd ≤ hi)) := by
  refine ⟨?_, ?_, ?_⟩
  · intro h0 r hcon hr hp
    rw [PositionJointSaturationHandle.construct] at hcon
    injection hcon with hcon
    subst hr
    obtain ⟨hb1, hb2, hb3⟩ := posSat_window_bounds
      ({ h0 with prev_pos := pp, prev_vel := pv }) jpos cmd dt
    have hmin : ({ h0 with prev_pos := pp, prev_vel := pv }
        : PositionJointSaturationHandle).min_pos_limit = l.min_position := by
      rw [← hcon]
      simp [hp]
    have hmax : ({ h0 with prev_pos := pp, prev_vel := pv }
        : PositionJointSaturationHandle).max_pos_limit = l.max_position := by
      rw [← hcon]
      simp [hp]
    exact ⟨⟨hmin ▸ hb1, hmax ▸ hb2⟩, hb3⟩
  · intro h0 r hcon hr hp
    rw [PositionJointSoftLimitsHandle.construct] at hcon
    split at hcon
    · exact Except.noConfusion hcon
    · injection hcon with hcon
      have hlim : h0.limits = l := by rw [← hcon]
      subst hr
      obtain ⟨hb1, hb2, hb3⟩ := posSoft_window_bounds
        ({ h0 with prev_pos := pp, prev_vel := pv }) jpos cmd dt
        (by rw [hlim]; exact hp)
      refine ⟨⟨?_, ?_⟩, hb3⟩
      · have he : l.min_position = h0.limits.min_position := by rw [hlim]
        rw [he]
        exact hb1
      · have he : l.max_position = h0.limits.max_position := by rw [hlim]
        rw [he]
        exact hb2
  · intro h0 r hcon hr hv hV
    rw [VelocityJointSoftLimitsHandle.construct] at hcon
    injection hcon with hcon
    have hcap : ({ h0 with prev_pos := pp, prev_vel := pv }
        : VelocityJointSoftLimitsHandle).max_vel_limit = l.max_velocity := by
      rw [← hcon]
      simp [hv]
    subst hr
    intro lo hi hlo hhi
    obtain ⟨hb1, hb2⟩ := velSoft_window_bounds
      ({ h0 with prev_pos := pp, prev_vel := pv }) jpos jvel cmd dt
      (by rw [hcap]; exact hV) lo hi hlo hhi
    rw [hcap] at hb1
    exact ⟨hb1, hb2⟩

theorem enforce_window_subset_and_clamped_witness :
    ((lC1.min_position
        ≤ (({ limits := lC1, min_pos_limit := -1, max_pos_limit := 1,
              prev_pos := some 0, prev_vel := 0 }
            : PositionJointSaturationHandle).enforceLimits 0 5 1).min_pos ∧
      (({ limits := lC1, min_pos_limit := -1, max_pos_limit := 1,
          prev_pos := some 0, prev_vel := 0 }
          : PositionJointSaturationHandle).enforceLimits 0 5 1).max_pos
        ≤ lC1.max_position) ∧
     ((({ limits := lC1, min_pos_limit := -1, max_pos_limit := 1,
          prev_pos := some 0, prev_vel := 0 }
          : PositionJointSaturationHandle).enforceLimits 0 5 1).min_pos
        ≤ (({ limits := lC1, min_pos_limit := -1, max_pos_limit := 1,
              prev_pos := some 0, prev_vel := 0 }
            : PositionJointSaturationHandle).enforceLimits 0 5 1).max_pos →
      (({ limits := lC1, min_pos_limit := -1, max_pos_limit := 1,
          prev_pos := some 0, prev_vel := 0 }
          : PositionJointSaturationHandle).enforceLimits 0 5 1).min_pos
        ≤ (({ limits := lC1, min_pos_limit := -1, max_pos_limit := 1,
              prev_pos := some 0, prev_vel := 0 }
            : PositionJointSaturationHandle).enforceLimits 0 5 1).cmd ∧
      (({ limits := lC1, min_pos_limit := -1, max_pos_limit := 1,
          prev_pos := some 0, prev_vel := 0 }
          : PositionJointSaturationHandle).enforceLimits 0 5 1).cmd
        ≤ (({ limits := lC1, min_pos_limit := -1, max_pos_limit := 1,
              prev_pos := some 0, prev_vel := 0 }
            : PositionJointSaturationHandle).enforceLimits 0 5 1).max_pos)) ∧
    ((lC1.min_position
        ≤ (({ limits := lC1, soft_limits := sC1, prev_pos := some 0,
              prev_vel := 0 }
            : PositionJointSoftLimitsHandle).enforceLimits 0 5 1).pos_low ∧
      (({ limits := lC1, soft_limits := sC1, prev_pos := some 0,
          prev_vel := 0 }
          : PositionJointSoftLimitsHandle).enforceLimits 0 5 1).pos_high
        ≤ lC1.max_position) ∧
     ((({ limits := lC1, soft_limits := sC1, prev_pos := some 0,
          prev_vel := 0 }
          : PositionJointSoftLimitsHandle).enforceLimits 0 5 1).pos_low
        ≤ (({ limits := lC1, soft_limits := sC1, prev_pos := some 0,
              prev_vel := 0 }
            : PositionJointSoftLimitsHandle).enforceLimits 0 5 1).pos_high →
      (({ limits := lC1, soft_limits := sC1, prev_pos := some 0,
          prev_vel := 0 }
          : PositionJointSoftLimitsHandle).enforceLimits 0 5 1).pos_low
        ≤ (({ limits := lC1, soft_limits := sC1, prev_pos := some 0,
              prev_vel := 0 }
            : PositionJointSoftLimitsHandle).enforceLimits 0 5 1).cmd ∧
      (({ limits := lC1, soft_limits := sC1, prev_pos := some 0,
          prev_vel := 0 }
          : PositionJointSoftLimitsHandle).enforceLimits 0 5 1).cmd
        ≤ (({ limits := lC1, soft_limits := sC1, prev_pos := some 0,
              prev_vel := 0 }
            : PositionJointSoftLimitsHandle).enforceLimits 0 5 1).pos_high)) ∧
    ((-lC1.max_velocity ≤ (-1/2 : ℚ) ∧ (1/2 : ℚ) ≤ lC1.max_velocity) ∧
     ((-1/2 : ℚ) ≤ (1/2 : ℚ) →
      (-1/2 : ℚ) ≤
        (({ limits := lC1, soft_limits := sC1, max_vel_limit := 2,
            prev_pos := some 0, prev_vel := 0 }
            : VelocityJointSoftLimitsHandle).enforceLimits 0 none 5 1).cmd ∧
      (({ limits := lC1, soft_limits := sC1, max_vel_limit := 2,
          prev_pos := some 0, prev_vel := 0 }
          : VelocityJointSoftLimitsHandle).enforceLimits 0 none 5 1).cmd
        ≤ (1/2 : ℚ))) := by
  have h := enforce_window_subset_and_clamped lC1 sC1 (some 0) 0 0 5 1 none
  refine ⟨h.1 _ _ rfl rfl rfl, h.2.1 _ _ rfl rfl rfl, h.2.2 _ _ rfl rfl rfl
    (by norm_num [lC1]) (-1/2) (1/2) ?_ ?_⟩ <;>
    norm_num [VelocityJointSoftLimitsHandle.enforceLimits, lC1, sC1, clamp]
